import Mathlib

/-!
Shallow embedding of `tornado_spider` (src/base.py) and proofs about it.

The repository implements a bounded breadth-first web crawler on top of
tornado coroutines.  Its core is:

* `BQueue` (src/base.py lines 12-41): a tornado queue with a lifetime
  admission cap (`capacity`), an admission counter (`put_counter`) and a
  latch (`is_reached`).
* `BaseWebSpider` (src/base.py lines 44-233): worker loop bodies
  `crawl_url` / `parse_url`, link filtering `get_urls`, fetch wrapper
  `get_html_from_url`, the final validation and output phase of `run`,
  and the writers `_write_json` / `_write_csv`.

External collaborators (the tornado HTTP client, the lxml document
parser, the stdlib url functions) are modelled as parameters or as small
explicitly documented models; everything else is translated line by line
from src/base.py.  Machine integers are modelled as `Int` / `Nat`
(Python integers are unbounded, so no wrap-around is needed), Python
exceptions as `Except PyErr`, Python sets of strings as duplicate-free
`List String` built with `List.insert`, and Python dicts (the extracted
records) as association lists.
-/

/-- Kinds of Python exceptions that the embedded code can raise. -/
inductive PyErr : Type
  | typeError
  | valueError
  | assertionError
  | indexError
  deriving DecidableEq, Repr

/-- State of a `BQueue` (src/base.py lines 12-41), the tornado queue
subclass with a lifetime admission cap.  `items` is the current FIFO
content of the underlying tornado queue and `unfinished` its count of
admitted-but-not-yet-`task_done` items (tornado `_unfinished_tasks`).
`admitted` is a history variable recording every item ever admitted, in
admission order; it is written exactly when the code admits an item and
is read by no operation, so it does not influence the behaviour. -/
structure BQueue (α : Type) : Type where
  capacity : Int
  put_counter : Nat
  is_reached : Bool
  items : List α
  unfinished : Nat
  admitted : List α
  deriving DecidableEq, Repr

namespace BQueue

/-- Embedding of `BQueue.__init__` (src/base.py lines 15-32): a `None`
capacity raises `TypeError`, a negative one raises `ValueError`,
otherwise the queue starts empty with `put_counter = 0` and
`is_reached = False`.  The tornado `maxsize` argument is always left at
its default 0 (unbounded size) by this repository, so it is not
modelled. -/
def init (α : Type) (capacity : Option Int) : Except PyErr (BQueue α) :=
  match capacity with
  | none => .error .typeError
  | some c =>
      if c < 0 then .error .valueError
      else .ok { capacity := c, put_counter := 0, is_reached := false,
                 items := [], unfinished := 0, admitted := [] }

/-- Embedding of `BQueue.put_nowait` (src/base.py lines 34-41): when the
cap latch is off, the item is appended (tornado `put_nowait`, which also
increments the unfinished-task counter), the admission counter is
incremented, and the latch flips exactly when the incremented counter
equals a positive capacity (the chained Python comparison
`0 < self.capacity == self.put_counter`).  When the latch is on, the
call is a no-op.  `BQueue.put` with unbounded maxsize resolves
immediately through this same method, so `q.put(x)` in the source is
embedded as `put_nowait` as well. -/
def put_nowait (q : BQueue α) (item : α) : BQueue α :=
  if q.is_reached then q
  else
    let counter := q.put_counter + 1
    { q with items := q.items ++ [item],
             unfinished := q.unfinished + 1,
             admitted := q.admitted ++ [item],
             put_counter := counter,
             is_reached := decide (0 < q.capacity ∧ q.capacity = (counter : Int)) }

/-- Embedding of tornado `Queue.task_done`: decrements the
unfinished-task counter.  (Tornado raises `ValueError` when the counter
is already zero; the spider only calls `task_done` after a successful
`get`, where the counter is positive, and the theorems that need
exactness carry that hypothesis.) -/
def task_done (q : BQueue α) : BQueue α :=
  { q with unfinished := q.unfinished - 1 }

end BQueue

/-- A record extracted from one page: `get_parsed_content` returns a
Python dict, modelled as an association list (ordered keys, as
`dict.keys()` iteration order is insertion order). -/
abbrev Record : Type := List (String × String)

/-- Keys of a record, as `dict.keys()` returns them. -/
def record_keys (r : Record) : List String := r.map Prod.fst

section StringOps

/-- Boolean test that `pat` occurs at the head of `s` (character lists). -/
def hasPreL : List Char → List Char → Bool
  | _, [] => true
  | [], _ :: _ => false
  | a :: s, b :: p => a = b && hasPreL s p

/-- Boolean test that `pat` occurs contiguously somewhere in the list. -/
def hasSubL (pat : List Char) : List Char → Bool
  | [] => pat.isEmpty
  | c :: t => hasPreL (c :: t) pat || hasSubL pat t

/-- Embedding of the Python substring test `needle in hay`. -/
def pyIn (needle hay : String) : Bool := hasSubL needle.toList hay.toList

/-- Embedding of Python `s.startswith(pre)`. -/
def strStarts (s pre : String) : Bool := hasPreL s.toList pre.toList

/-- Characters before the first `#`, helper for `urldefrag0`. -/
def beforeHash : List Char → List Char
  | [] => []
  | c :: t => if c = '#' then [] else c :: beforeHash t

/-- Embedding of `urllib.parse.urldefrag(href)[0]`: the part of the url
before the first `#` (the whole url when there is no fragment). -/
def urldefrag0 (s : String) : String := String.mk (beforeHash s.toList)

/-- Characters before the first `/`, helper for `schemeAuthority`. -/
def upToSlash : List Char → List Char
  | [] => []
  | c :: t => if c = '/' then [] else c :: upToSlash t

/-- Scheme plus authority of an absolute http(s) url, helper for the
`urljoin` model. -/
def schemeAuthority (base : String) : String :=
  if strStarts base "https://" then
    "https://" ++ String.mk (upToSlash (base.toList.drop 8))
  else if strStarts base "http://" then
    "http://" ++ String.mk (upToSlash (base.toList.drop 7))
  else base

/-- Model of `urllib.parse.urljoin(base, url)` restricted to the
reference forms exercised here: an absolute http(s) reference is
returned unchanged; a root-relative reference (leading `/`) is resolved
against the scheme and authority of the base; any other reference is
appended to the base, which agrees with the stdlib when the base is of
the form `scheme://host/`. -/
def urljoin (base url : String) : String :=
  if strStarts url "http://" || strStarts url "https://" then url
  else if strStarts url "/" then schemeAuthority base ++ url
  else base ++ url

end StringOps

/-- Embedding of `BaseWebSpider.get_urls` (src/base.py lines 87-100).
The lxml document and its xpath query `//a/@href` are abstracted: the
function receives the list of raw `href` attribute values in document
order.  For each href: skip it when any configured exclusion substring
occurs in the RAW href; otherwise join it (fragment stripped) with the
base; keep the joined url only when it starts with the base, appending
it to `urls` and, when the capture substring occurs in it, also to
`urls_to_parse`.  The stdlib join is a parameter `join` so that the
theorems hold for every join function; call sites instantiate it with
the `urljoin` model. -/
def get_urls (join : String → String → String) (base capture : String)
    (exclude : List String) (hrefs : List String) : List String × List String :=
  match hrefs with
  | [] => ([], [])
  | href :: rest =>
      if exclude.any (fun e => pyIn e href) then
        get_urls join base capture exclude rest
      else
        let url := join base (urldefrag0 href)
        if strStarts url base then
          let tail := get_urls join base capture exclude rest
          (url :: tail.1, if pyIn capture url then url :: tail.2 else tail.2)
        else
          get_urls join base capture exclude rest

/-- Result of `get_html_from_url` (src/base.py lines 102-112): on a
successful fetch the decoded document string, on any fetch exception the
Python empty list `[]` that line 111 returns (`raise gen.Return([])`).
The two constructors record the dynamic type of the returned value. -/
inductive FetchOut : Type
  | doc (body : String)
  | failSentinel
  deriving DecidableEq, Repr

/-- Embedding of `BaseWebSpider.get_html_from_url` (src/base.py lines
102-112).  The tornado HTTP client is the parameter `fetch`; `none`
means the fetch raised (timeout, connection error, HTTP error).  The
except branch logs and returns the empty list `[]`, here
`FetchOut.failSentinel`. -/
def get_html_from_url (fetch : String → Option String) (url : String) : FetchOut :=
  match fetch url with
  | some body => .doc body
  | none => .failSentinel

/-- Model of the collaborator call `lxml.html.fromstring(document)`
composed with the xpath query, as used by `get_urls` line 91.  On a
string the parser behaviour is abstracted by the parameter `parseDoc`
(which may itself raise, e.g. `ParserError` on an empty document).  On
the Python list `[]` — the sentinel `get_html_from_url` returns after a
failed fetch — lxml raises `TypeError`: `fromstring` requires a string
or bytes object, and its very first inspection of the argument fails on
a list.  This branch is forced by the lxml interface, not configurable. -/
def lxml_hrefs (parseDoc : String → Except PyErr (List String)) :
    FetchOut → Except PyErr (List String)
  | .doc s => parseDoc s
  | .failSentinel => .error .typeError

/-- Embedding of `BaseWebSpider.get_links_from_url` (src/base.py lines
114-118): fetch the document, parse it, and filter the hrefs through
`get_urls`.  Exceptions from the parse step propagate. -/
def get_links_from_url (fetch : String → Option String)
    (parseDoc : String → Except PyErr (List String))
    (base capture : String) (exclude : List String) (url : String) :
    Except PyErr (List String × List String) :=
  (lxml_hrefs parseDoc (get_html_from_url fetch url)).map
    (get_urls urljoin base capture exclude)

/-- Mutable state of a `BaseWebSpider` (src/base.py lines 44-77): the
two bounded queues, the three registry sets of `self.brief`
(`defaultdict(set)`, so absent keys read as empty sets), the result list
`self.data`, and the configured output format.  Python sets of strings
are modelled as duplicate-free lists built with `List.insert`. -/
structure SpiderState : Type where
  q_crawl : BQueue String
  q_parse : BQueue String
  crawling : List String
  crawled : List String
  parsing : List String
  data : List Record
  output : String
  deriving DecidableEq, Repr

/-- Recognized output formats (src/base.py line 45). -/
def OUTPUT_FORMATS : List String := ["json", "csv"]

/-- Embedding of `BaseWebSpider.__init__` (src/base.py lines 47-77)
restricted to its fallible, state-creating part: the `assert output in
OUTPUT_FORMATS` check (AssertionError first, line 51), then construction
of the two capped queues (lines 64-65), which re-raises any capacity
error from `BQueue.__init__`; the registries and result list start
empty (lines 67-68). -/
def spider_init (output : String) (max_crawl max_parse : Option Int) :
    Except PyErr SpiderState :=
  if output ∈ OUTPUT_FORMATS then
    match BQueue.init String max_crawl with
    | .error e => .error e
    | .ok qc =>
        match BQueue.init String max_parse with
        | .error e => .error e
        | .ok qp =>
            .ok { q_crawl := qc, q_parse := qp, crawling := [], crawled := [],
                  parsing := [], data := [], output := output }
  else .error .assertionError

/-- Embedding of the first loop of `crawl_url` (src/base.py lines
139-143): each discovered url is offered to the crawl queue unless the
cap latch is already on, in which case the loop breaks.  No membership
check of any registry guards this enqueue. -/
def crawl_enqueue (urls : List String) (s : SpiderState) : SpiderState :=
  match urls with
  | [] => s
  | url :: rest =>
      if s.q_crawl.is_reached then s
      else crawl_enqueue rest { s with q_crawl := s.q_crawl.put_nowait url }

/-- Embedding of the second loop of `crawl_url` (src/base.py lines
145-153): each extract candidate is offered to the parse queue unless
its cap latch is on (break); a candidate already in the `parsing`
registry is skipped, otherwise it is enqueued and added to `parsing`. -/
def parse_candidates (urls_to_parse : List String) (s : SpiderState) : SpiderState :=
  match urls_to_parse with
  | [] => s
  | url :: rest =>
      if s.q_parse.is_reached then s
      else
        if url ∈ s.parsing then parse_candidates rest s
        else parse_candidates rest
          { s with q_parse := s.q_parse.put_nowait url,
                   parsing := s.parsing.insert url }

/-- Outcome of one body of a worker loop: normal completion, an escaped
Python exception (killing the surrounding worker coroutine), or a block
on an empty queue.  The carried state is the spider state after the
`finally` block ran. -/
inductive StepResult : Type
  | ok (s : SpiderState)
  | raised (e : PyErr) (s : SpiderState)
  | blocked
  deriving DecidableEq, Repr

/-- The `finally` block of `crawl_url` (src/base.py line 155). -/
def crawlTaskDone (s : SpiderState) : SpiderState :=
  { s with q_crawl := s.q_crawl.task_done }

/-- Embedding of `BaseWebSpider.crawl_url` (src/base.py lines 126-155),
one body of the crawler loop: dequeue a url (block when the queue is
empty); if it is already in the `crawling` registry, return at once
(only the `finally` `task_done` runs); otherwise record it in
`crawling`, fetch and parse its links (an exception here escapes after
`task_done`), record it in `crawled`, feed the two discovered lists to
the two enqueue loops, and run `task_done`. -/
def crawl_url (fetch : String → Option String)
    (parseDoc : String → Except PyErr (List String))
    (base capture : String) (exclude : List String) (s : SpiderState) : StepResult :=
  match s.q_crawl.items with
  | [] => .blocked
  | current_url :: rest =>
      let s0 : SpiderState := { s with q_crawl := { s.q_crawl with items := rest } }
      if current_url ∈ s0.crawling then .ok (crawlTaskDone s0)
      else
        let s1 : SpiderState := { s0 with crawling := s0.crawling.insert current_url }
        match get_links_from_url fetch parseDoc base capture exclude current_url with
        | .error e => .raised e (crawlTaskDone s1)
        | .ok (urls, urls_to_parse) =>
            let s2 : SpiderState := { s1 with crawled := s1.crawled.insert current_url }
            .ok (crawlTaskDone (parse_candidates urls_to_parse (crawl_enqueue urls s2)))

/-- Embedding of `BaseWebSpider.parse_url` (src/base.py lines 157-165),
one body of the parser loop: dequeue a url (block when the queue is
empty), run the pluggable `get_parsed_content` collaborator (`none`
means it raised), append the record on success, and always run
`task_done` on the parse queue.  An extraction exception escapes after
the `finally`. -/
def parse_url (extract : String → Option Record) (s : SpiderState) : StepResult :=
  match s.q_parse.items with
  | [] => .blocked
  | url_to_parse :: rest =>
      let q1 : BQueue String := { s.q_parse with items := rest }
      match extract url_to_parse with
      | some content =>
          .ok { s with q_parse := q1.task_done, data := s.data ++ [content] }
      | none => .raised .typeError { s with q_parse := q1.task_done }

/-- Content of the csv file `_write_csv` produces: the header row and
the record rows. -/
structure CsvOut : Type where
  header : List String
  rows : List Record
  deriving DecidableEq, Repr

/-- Embedding of `BaseWebSpider._write_csv` (src/base.py lines 191-196)
up to file IO: line 192 evaluates `self.data[0].keys()`, which raises
`IndexError` on an empty result list; otherwise the csv has the keys of
the first record as header and one row per record. -/
def _write_csv (data : List Record) : Except PyErr CsvOut :=
  match data with
  | [] => .error .indexError
  | r :: _ => .ok { header := record_keys r, rows := data }

/-- File produced by the writing phase of `run` (src/base.py lines
226-230): a json dump of the data, a csv file, or no file at all when
the output string is neither (unreachable after the constructor
assertion, but the `if/elif` falls through). -/
inductive OutFile : Type
  | json (data : List Record)
  | csv (c : CsvOut)
  | nothing
  deriving DecidableEq, Repr

/-- Embedding of the Python set equality `brief['crawling'] ==
brief['crawled']` on the duplicate-free list model. -/
def pySetEq (a b : List String) : Bool :=
  a.all (fun x => b.contains x) && b.all (fun x => a.contains x)

/-- Embedding of the writing phase of `run` (src/base.py lines 226-230):
dispatch on the output format.  File naming (timestamped) and the actual
IO are outside the model; the produced content is returned instead. -/
def write_output (s : SpiderState) : Except PyErr OutFile :=
  if s.output = "json" then .ok (.json s.data)
  else if s.output = "csv" then (_write_csv s.data).map .csv
  else .ok .nothing

/-- Embedding of the tail of `BaseWebSpider.run` after both queue joins
(src/base.py lines 216-231): first the assertion `brief['crawling'] ==
brief['crawled']` (line 216), then the assertion `len(brief['parsing'])
== len(self.data)` (line 219), each raising `AssertionError` on failure
and thereby aborting the run before any file is written; only when both
hold does the writing phase run. -/
def run_finish (s : SpiderState) : Except PyErr OutFile :=
  if pySetEq s.crawling s.crawled then
    if s.parsing.length = s.data.length then write_output s
    else .error .assertionError
  else .error .assertionError

/-! ## Lemmas about `BQueue` -/

/-- Once the cap latch is on, `put_nowait` is the identity. -/
theorem BQueue.put_nowait_of_reached {α : Type} (q : BQueue α) (x : α)
    (h : q.is_reached = true) : q.put_nowait x = q := by
  simp [BQueue.put_nowait, h]

/-- Once the cap latch is on, any sequence of `put_nowait` calls is the
identity. -/
theorem BQueue.foldl_put_nowait_of_reached {α : Type} (xs : List α) (q : BQueue α)
    (h : q.is_reached = true) : xs.foldl BQueue.put_nowait q = q := by
  induction xs with
  | nil => rfl
  | cons x xs ih => rw [List.foldl_cons, BQueue.put_nowait_of_reached q x h]; exact ih

/-- With capacity 0 the latch stays off and every offered item is
admitted, appended in order, with the counter advancing by one per item. -/
theorem BQueue.foldl_put_nowait_cap_zero {α : Type} (xs : List α) (q : BQueue α)
    (hc : q.capacity = 0) (h : q.is_reached = false) :
    (xs.foldl BQueue.put_nowait q).is_reached = false ∧
    (xs.foldl BQueue.put_nowait q).admitted = q.admitted ++ xs ∧
    (xs.foldl BQueue.put_nowait q).put_counter = q.put_counter + xs.length ∧
    (xs.foldl BQueue.put_nowait q).items = q.items ++ xs := by
  induction xs generalizing q with
  | nil => exact ⟨h, by simp, rfl, by simp⟩
  | cons x xs ih =>
      have hq : q.put_nowait x =
          { q with items := q.items ++ [x], unfinished := q.unfinished + 1,
                   admitted := q.admitted ++ [x], put_counter := q.put_counter + 1,
                   is_reached := false } := by
        simp [BQueue.put_nowait, h, hc]
      obtain ⟨h1, h2, h3, h4⟩ := ih (q.put_nowait x) (by rw [hq]; exact hc) (by rw [hq])
      rw [List.foldl_cons]
      refine ⟨h1, ?_, ?_, ?_⟩
      · rw [h2, hq]; simp
      · rw [h3, hq]; simp; omega
      · rw [h4, hq]; simp

/-- Claim C1: once the latch of a positive-capacity `BQueue` is on,
every further sequence of `put_nowait` calls leaves the admitted count
and the queue contents unchanged, and the latch never reverts to off. -/
theorem claim_c1 (q : BQueue String) (hcap : 0 < q.capacity)
    (h : q.is_reached = true) (xs : List String) :
    (xs.foldl BQueue.put_nowait q).put_counter = q.put_counter ∧
    (xs.foldl BQueue.put_nowait q).items = q.items ∧
    (xs.foldl BQueue.put_nowait q).admitted = q.admitted ∧
    (xs.foldl BQueue.put_nowait q).is_reached = true := by
  rw [BQueue.foldl_put_nowait_of_reached xs q h]
  exact ⟨rfl, rfl, rfl, h⟩

/-- Witness for C1 at a concrete capped queue and a concrete sequence of
offers. -/
theorem claim_c1_witness :
    ((["b", "c"] : List String).foldl BQueue.put_nowait
        ⟨1, 1, true, ["a"], 1, ["a"]⟩).put_counter = 1 ∧
    ((["b", "c"] : List String).foldl BQueue.put_nowait
        ⟨1, 1, true, ["a"], 1, ["a"]⟩).items = ["a"] ∧
    ((["b", "c"] : List String).foldl BQueue.put_nowait
        ⟨1, 1, true, ["a"], 1, ["a"]⟩).admitted = ["a"] ∧
    ((["b", "c"] : List String).foldl BQueue.put_nowait
        ⟨1, 1, true, ["a"], 1, ["a"]⟩).is_reached = true :=
  claim_c1 ⟨1, 1, true, ["a"], 1, ["a"]⟩ (by decide) rfl ["b", "c"]

/-- Claim C8: a `BQueue` constructed with capacity 0 never trips its
latch: after any finite sequence of `put_nowait` calls `is_reached` is
still false, every offered item was admitted (in order), and the counter
equals the number of offers. -/
theorem claim_c8 (xs : List String) (q0 : BQueue String)
    (h : BQueue.init String (some 0) = .ok q0) :
    (xs.foldl BQueue.put_nowait q0).is_reached = false ∧
    (xs.foldl BQueue.put_nowait q0).admitted = xs ∧
    (xs.foldl BQueue.put_nowait q0).items = xs ∧
    (xs.foldl BQueue.put_nowait q0).put_counter = xs.length := by
  have hq0 : q0 = { capacity := 0, put_counter := 0, is_reached := false,
                    items := [], unfinished := 0, admitted := [] } := by
    have h2 := h
    rw [show BQueue.init String (some 0) =
        Except.ok ⟨0, 0, false, [], 0, []⟩ from rfl] at h2
    injection h2 with h3
    exact h3.symm
  subst hq0
  obtain ⟨h1, h2, h3, h4⟩ :=
    BQueue.foldl_put_nowait_cap_zero xs ⟨0, 0, false, [], 0, []⟩ rfl rfl
  exact ⟨h1, by simpa using h2, by simpa using h4, by simpa using h3⟩

/-- Witness for C8 at a concrete offer sequence. -/
theorem claim_c8_witness :
    ((["a", "b", "c"] : List String).foldl BQueue.put_nowait
        ⟨0, 0, false, [], 0, []⟩).is_reached = false ∧
    ((["a", "b", "c"] : List String).foldl BQueue.put_nowait
        ⟨0, 0, false, [], 0, []⟩).admitted = ["a", "b", "c"] ∧
    ((["a", "b", "c"] : List String).foldl BQueue.put_nowait
        ⟨0, 0, false, [], 0, []⟩).items = ["a", "b", "c"] ∧
    ((["a", "b", "c"] : List String).foldl BQueue.put_nowait
        ⟨0, 0, false, [], 0, []⟩).put_counter = 3 :=
  claim_c8 ["a", "b", "c"] ⟨0, 0, false, [], 0, []⟩ rfl

/-! ## Construction and output claims -/

/-- Claim C9: `BQueue.__init__` succeeds exactly when the capacity is a
non-negative integer (it raises on `None` and on negative values), and
`BaseWebSpider.__init__` raises on an unsupported output format and
succeeds on a valid configuration. -/
theorem claim_c9 :
    (∀ c : Option Int,
        (∃ q : BQueue String, BQueue.init String c = .ok q) ↔
          ∃ v, c = some v ∧ 0 ≤ v) ∧
    (∀ (out : String) (mc mp : Option Int), out ∉ OUTPUT_FORMATS →
        spider_init out mc mp = .error .assertionError) ∧
    (∀ (out : String) (vc vp : Int), out ∈ OUTPUT_FORMATS → 0 ≤ vc → 0 ≤ vp →
        ∃ s, spider_init out (some vc) (some vp) = .ok s) := by
  refine ⟨?_, ?_, ?_⟩
  · intro c
    cases c with
    | none => simp [BQueue.init]
    | some v =>
        by_cases hv : v < 0
        · simp [BQueue.init, hv]
        · simp [BQueue.init, hv]
          omega
  · intro out mc mp hout
    simp [spider_init, hout]
  · intro out vc vp hout hvc hvp
    refine ⟨{ q_crawl := ⟨vc, 0, false, [], 0, []⟩,
              q_parse := ⟨vp, 0, false, [], 0, []⟩,
              crawling := [], crawled := [], parsing := [], data := [],
              output := out }, ?_⟩
    simp [spider_init, hout, BQueue.init,
          show ¬vc < 0 by omega, show ¬vp < 0 by omega]

/-- Witness for C9: a concrete valid capacity, a concrete rejected
output format, and a concrete valid spider configuration. -/
theorem claim_c9_witness :
    (∃ q : BQueue String, BQueue.init String (some 3) = .ok q) ∧
    spider_init "xml" (some 0) (some 0) = .error .assertionError ∧
    (∃ s, spider_init "json" (some 2) (some 5) = .ok s) :=
  ⟨(claim_c9.1 (some 3)).mpr ⟨3, rfl, by decide⟩,
   claim_c9.2.1 "xml" (some 0) (some 0) (by decide),
   claim_c9.2.2 "json" 2 5 (by decide) (by decide) (by decide)⟩

/-- Claim C10: `_write_csv` fails with `IndexError` on an empty result
list (line 192 indexes `self.data[0]`), and on a non-empty list the csv
columns are exactly the keys of the first record. -/
theorem claim_c10 :
    _write_csv [] = .error .indexError ∧
    ∀ (r : Record) (rs : List Record),
      _write_csv (r :: rs) = .ok { header := record_keys r, rows := r :: rs } :=
  ⟨rfl, fun _ _ => rfl⟩

/-- Claim C4: the tail of `run` raises `AssertionError` (aborting before
any write) whenever the crawling and crawled registries differ as sets
or the parsing registry size differs from the result count, and runs the
writing phase exactly when both assertions hold. -/
theorem claim_c4 (s : SpiderState) :
    (¬(pySetEq s.crawling s.crawled = true ∧ s.parsing.length = s.data.length) →
        run_finish s = .error .assertionError) ∧
    ((pySetEq s.crawling s.crawled = true ∧ s.parsing.length = s.data.length) →
        run_finish s = write_output s) := by
  constructor
  · intro hn
    by_cases h1 : pySetEq s.crawling s.crawled = true
    · have h2 : ¬s.parsing.length = s.data.length := fun h => hn ⟨h1, h⟩
      simp [run_finish, h1, h2]
    · simp [run_finish, h1]
  · rintro ⟨h1, h2⟩
    simp [run_finish, h1, h2]

/-- Witness for C4: a state with one crawling url and no crawled url is
rejected by the first assertion; a consistent state reaches the writing
phase. -/
theorem claim_c4_witness :
    run_finish ⟨⟨0, 0, false, [], 0, []⟩, ⟨0, 0, false, [], 0, []⟩,
        ["a"], [], [], [], "json"⟩ = .error .assertionError ∧
    run_finish ⟨⟨0, 0, false, [], 0, []⟩, ⟨0, 0, false, [], 0, []⟩,
        ["a"], ["a"], [], [], "json"⟩ =
      write_output ⟨⟨0, 0, false, [], 0, []⟩, ⟨0, 0, false, [], 0, []⟩,
        ["a"], ["a"], [], [], "json"⟩ :=
  ⟨(claim_c4 _).1 (by decide), (claim_c4 _).2 (by decide)⟩

/-- Claim C7: when the extraction collaborator fails on a dequeued url,
`parse_url` still marks the task done — the in-flight counter of the
parse queue goes down by exactly one — and appends nothing to the result
collection; the exception escapes the worker body. -/
theorem claim_c7 (extract : String → Option Record) (s : SpiderState)
    (url : String) (rest : List String)
    (hq : s.q_parse.items = url :: rest)
    (hfail : extract url = none)
    (hunf : 0 < s.q_parse.unfinished) :
    ∃ s2, parse_url extract s = .raised .typeError s2 ∧
      s2.data = s.data ∧
      s2.q_parse.unfinished + 1 = s.q_parse.unfinished ∧
      s2.q_parse.items = rest ∧
      s2.crawling = s.crawling ∧ s2.crawled = s.crawled ∧ s2.parsing = s.parsing := by
  refine ⟨{ s with q_parse :=
      ({ s.q_parse with items := rest } : BQueue String).task_done }, ?_, rfl, ?_, rfl, rfl, rfl, rfl⟩
  · simp [parse_url, hq, hfail]
  · simp [BQueue.task_done]
    omega

/-- Witness for C7 at a concrete queue and an always-failing extractor. -/
theorem claim_c7_witness :
    ∃ s2, parse_url (fun _ => none)
        ⟨⟨0, 0, false, [], 0, []⟩, ⟨0, 1, false, ["u"], 1, ["u"]⟩,
          [], [], ["u"], [], "json"⟩ = .raised .typeError s2 ∧
      s2.data = [] ∧ s2.q_parse.unfinished + 1 = 1 ∧ s2.q_parse.items = [] ∧
      s2.crawling = [] ∧ s2.crawled = [] ∧ s2.parsing = ["u"] :=
  claim_c7 (fun _ => none) _ "u" [] rfl rfl (by decide)

/-! ## Extract-queue admission (claim C6) -/

/-- Effect of `put_nowait` while the latch is off: the item is appended
to the contents and to the admission history, and the counter advances. -/
theorem BQueue.put_nowait_not_reached {α : Type} (q : BQueue α) (x : α)
    (h : q.is_reached = false) :
    (q.put_nowait x).admitted = q.admitted ++ [x] ∧
    (q.put_nowait x).items = q.items ++ [x] ∧
    (q.put_nowait x).put_counter = q.put_counter + 1 := by
  simp [BQueue.put_nowait, h]

/-- The candidate loop preserves the registry invariant: every url ever
admitted to the parse queue is recorded in `parsing`, and the admission
history is duplicate-free. -/
theorem parse_candidates_inv (cs : List String) (s : SpiderState)
    (hsub : ∀ x ∈ s.q_parse.admitted, x ∈ s.parsing)
    (hnd : s.q_parse.admitted.Nodup) :
    (∀ x ∈ (parse_candidates cs s).q_parse.admitted,
        x ∈ (parse_candidates cs s).parsing) ∧
    (parse_candidates cs s).q_parse.admitted.Nodup := by
  induction cs generalizing s with
  | nil => exact ⟨hsub, hnd⟩
  | cons url rest ih =>
      rw [parse_candidates]
      by_cases hr : s.q_parse.is_reached
      · simp only [hr, if_true]
        exact ⟨hsub, hnd⟩
      · simp only [hr, Bool.false_eq_true, if_false]
        by_cases hm : url ∈ s.parsing
        · simp only [hm, if_true]
          exact ih s hsub hnd
        · simp only [hm, if_false]
          apply ih
          · intro x hx
            have hreach : s.q_parse.is_reached = false := by
              simpa using hr
            obtain ⟨ha, -, -⟩ := BQueue.put_nowait_not_reached s.q_parse url hreach
            simp only [ha, List.mem_append, List.mem_singleton] at hx
            rcases hx with hx | hx
            · exact List.mem_insert_of_mem (hsub x hx)
            · subst hx; exact List.mem_insert_self _ _
          · have hreach : s.q_parse.is_reached = false := by
              simpa using hr
            obtain ⟨ha, -, -⟩ := BQueue.put_nowait_not_reached s.q_parse url hreach
            rw [ha, List.nodup_append]
            refine ⟨hnd, List.nodup_singleton url, ?_⟩
            intro x hx hx1
            rw [List.mem_singleton] at hx1
            subst hx1
            exact hm (hsub x hx)

/-- Claim C6: while iterating the extract candidates of one page, a
reached cap latch stops the loop with nothing further admitted; an
unreached latch admits the head candidate exactly when it is not yet in
the `parsing` registry, recording it there; and under the registry
invariant the parse queue never admits the same url twice. -/
theorem claim_c6 (cs : List String) (s : SpiderState)
    (hsub : ∀ x ∈ s.q_parse.admitted, x ∈ s.parsing)
    (hnd : s.q_parse.admitted.Nodup) :
    (s.q_parse.is_reached = true → parse_candidates cs s = s) ∧
    (∀ url rest, cs = url :: rest → s.q_parse.is_reached = false →
        (url ∈ s.parsing → parse_candidates cs s = parse_candidates rest s) ∧
        (url ∉ s.parsing → parse_candidates cs s = parse_candidates rest
            { s with q_parse := s.q_parse.put_nowait url,
                     parsing := s.parsing.insert url })) ∧
    (parse_candidates cs s).q_parse.admitted.Nodup := by
  refine ⟨?_, ?_, (parse_candidates_inv cs s hsub hnd).2⟩
  · intro hr
    cases cs with
    | nil => rfl
    | cons url rest => rw [parse_candidates]; simp [hr]
  · intro url rest hcs hr
    subst hcs
    constructor
    · intro hm
      rw [parse_candidates]
      simp [hr, hm]
    · intro hm
      rw [parse_candidates]
      simp [hr, hm]

/-- Witness for C6: a concrete candidate list with a duplicate against a
fresh unlimited parse queue; the duplicate is admitted only once. -/
theorem claim_c6_witness :
    (parse_candidates ["a", "a", "b"]
        ⟨⟨0, 0, false, [], 0, []⟩, ⟨0, 0, false, [], 0, []⟩,
          [], [], [], [], "json"⟩).q_parse.admitted.Nodup :=
  (claim_c6 ["a", "a", "b"]
      ⟨⟨0, 0, false, [], 0, []⟩, ⟨0, 0, false, [], 0, []⟩, [], [], [], [], "json"⟩
      (by simp) (by simp)).2.2

/-! ## Crawl worker dedup behaviour (claims C3, C2) -/

/-- Amended claim C3: when the dequeued url is already in the `crawling`
registry (the set of urls ever admitted to processing), the worker body
skips it — no fetch result is consulted, no registry changes, only the
dequeue and the `finally` `task_done` take effect.  The result does not
depend on the fetch or parse collaborators at all. -/
theorem claim_c3_amended (fetch : String → Option String)
    (parseDoc : String → Except PyErr (List String))
    (base capture : String) (exclude : List String) (s : SpiderState)
    (url : String) (rest : List String)
    (hq : s.q_crawl.items = url :: rest)
    (hmem : url ∈ s.crawling) :
    crawl_url fetch parseDoc base capture exclude s =
      .ok { s with q_crawl := { s.q_crawl with
              items := rest,
              unfinished := s.q_crawl.unfinished - 1 } } := by
  simp [crawl_url, hq, hmem, crawlTaskDone, BQueue.task_done]

/-- Witness for the amended C3 at a concrete state whose head-of-queue
url is already registered. -/
theorem claim_c3_amended_witness :
    crawl_url (fun _ => some "") (fun _ => .ok []) "b" "c" []
        ⟨⟨0, 1, false, ["u"], 1, ["u"]⟩, ⟨0, 0, false, [], 0, []⟩,
          ["u"], ["u"], [], [], "json"⟩ =
      .ok ⟨⟨0, 1, false, [], 0, ["u"]⟩, ⟨0, 0, false, [], 0, []⟩,
          ["u"], ["u"], [], [], "json"⟩ :=
  claim_c3_amended (fun _ => some "") (fun _ => .ok []) "b" "c" [] _ "u" []
    rfl (by decide)

/-- Fetch collaborator for the C3 counterexample run: every page fetches
successfully and its document is its own url. -/
def c3_fetch : String → Option String := fun u => some u

/-- Parse collaborator for the C3 counterexample run: page A links to
/B, every other page links to /A. -/
def c3_parse : String → Except PyErr (List String) := fun d =>
  if d = "https://e.org/A" then .ok ["/B"] else .ok ["/A"]

/-- Seeded spider for the C3 counterexample: unlimited queues, url A
already admitted to the crawl queue. -/
def c3_seed : SpiderState :=
  ⟨⟨0, 1, false, ["https://e.org/A"], 1, ["https://e.org/A"]⟩,
   ⟨0, 0, false, [], 0, []⟩, [], [], [], [], "json"⟩

/-- One crawler iteration of the C3 counterexample run (total wrapper
around `crawl_url` for chaining; both steps of the run return `.ok`). -/
def c3_step (s : SpiderState) : SpiderState :=
  match crawl_url c3_fetch c3_parse "https://e.org" "/wiki/" [] s with
  | .ok s1 => s1
  | .raised _ s1 => s1
  | .blocked => s

/-- Counterexample to claim C3 as stated: in the concrete two-page run
A ↔ B, after crawling A and then B, url A has been admitted to the
crawl queue twice — its second admission happened while A was already in
the `crawled` registry, which also holds at the end.  The enqueue loop
of `crawl_url` performs no membership check, so visited urls are
re-admitted. -/
theorem claim_c3_cex :
    (c3_step (c3_seed |> c3_step)).q_crawl.admitted.count "https://e.org/A" = 2 ∧
    "https://e.org/A" ∈ (c3_step (c3_seed |> c3_step)).crawled ∧
    "https://e.org/A" ∈ (c3_step (c3_seed |> c3_step)).q_crawl.items := by
  decide

/-- Fetch collaborator for the C2 run: the fetch always fails. -/
def c2_fetch : String → Option String := fun _ => none

/-- Seeded spider for the C2 run: the start url has been admitted to the
crawl queue (src/base.py line 204). -/
def c2_seed : SpiderState :=
  ⟨⟨0, 1, false, ["https://e.org/"], 1, ["https://e.org/"]⟩,
   ⟨0, 0, false, [], 0, []⟩, [], [], [], [], "json"⟩

/-- State after the single crawler iteration of the C2 run. -/
def c2_state : SpiderState :=
  match crawl_url c2_fetch (fun _ => .ok []) "https://e.org/" "/wiki/" [] c2_seed with
  | .ok s1 => s1
  | .raised _ s1 => s1
  | .blocked => c2_seed

/-- Claim C2 evaluated on the failing input: with a fetch collaborator
that always fails, the crawler body does NOT treat the failure as zero
links.  `get_html_from_url` returns the Python list `[]`, `get_urls`
hands it to `lxml.html.fromstring`, which raises `TypeError`; the
exception escapes `crawl_url` (killing the worker), the url is recorded
in `crawling` but never in `crawled`, and the final phase of `run`
aborts on its first assertion with an empty result collection.  This
contradicts both the claim and the intent of the except branch at
src/base.py lines 109-111. -/
theorem claim_c2_bug :
    crawl_url c2_fetch (fun _ => .ok []) "https://e.org/" "/wiki/" [] c2_seed =
      .raised .typeError c2_state ∧
    c2_state.crawling = ["https://e.org/"] ∧
    c2_state.crawled = [] ∧
    c2_state.data = [] ∧
    run_finish c2_state = .error .assertionError :=
  ⟨rfl, rfl, rfl, rfl, rfl⟩

/-! ## Link filtering (claim C5) -/

/-- Unfolding of `get_urls` when an exclusion substring occurs in the
raw href: the href is skipped. -/
theorem get_urls_cons_excluded (join : String → String → String)
    (base capture : String) (exclude : List String) (href : String)
    (rest : List String)
    (hex : exclude.any (fun e => pyIn e href) = true) :
    get_urls join base capture exclude (href :: rest) =
      get_urls join base capture exclude rest := by
  rw [get_urls]
  simp [hex]

/-- Unfolding of `get_urls` when the joined url does not start with the
base: the href is dropped from both lists. -/
theorem get_urls_cons_off (join : String → String → String)
    (base capture : String) (exclude : List String) (href : String)
    (rest : List String)
    (hex : exclude.any (fun e => pyIn e href) = false)
    (hs : strStarts (join base (urldefrag0 href)) base = false) :
    get_urls join base capture exclude (href :: rest) =
      get_urls join base capture exclude rest := by
  rw [get_urls]
  simp [hex, hs]

/-- Unfolding of `get_urls` when the href passes the exclusion filter
and the joined url is in-domain: it is prepended to `urls` and, when the
capture substring occurs in it, to `urls_to_parse`. -/
theorem get_urls_cons_kept (join : String → String → String)
    (base capture : String) (exclude : List String) (href : String)
    (rest : List String)
    (hex : exclude.any (fun e => pyIn e href) = false)
    (hs : strStarts (join base (urldefrag0 href)) base = true) :
    get_urls join base capture exclude (href :: rest) =
      (join base (urldefrag0 href) :: (get_urls join base capture exclude rest).1,
       if pyIn capture (join base (urldefrag0 href)) = true then
         join base (urldefrag0 href) :: (get_urls join base capture exclude rest).2
       else (get_urls join base capture exclude rest).2) := by
  rw [get_urls]
  simp [hex, hs]

/-- Amended claim C5: for every join function, every url returned in
`urls` starts with the configured base prefix and is the join of some
href in which no exclusion substring occurs (the exclusion filter
applies to the raw href, not to the joined url); `urls_to_parse` is
exactly the sublist of `urls` in which the capture substring occurs; and
off-domain urls appear in neither list. -/
theorem claim_c5_amended (join : String → String → String)
    (base capture : String) (exclude : List String) (hrefs : List String) :
    (∀ u ∈ (get_urls join base capture exclude hrefs).1,
        strStarts u base = true ∧
        ∃ h, h ∈ hrefs ∧ exclude.all (fun e => !pyIn e h) = true ∧
          u = join base (urldefrag0 h)) ∧
    (get_urls join base capture exclude hrefs).2 =
      (get_urls join base capture exclude hrefs).1.filter
        (fun u => pyIn capture u) ∧
    (∀ u ∈ (get_urls join base capture exclude hrefs).2,
        strStarts u base = true) := by
  have main : (∀ u ∈ (get_urls join base capture exclude hrefs).1,
        strStarts u base = true ∧
        ∃ h, h ∈ hrefs ∧ exclude.all (fun e => !pyIn e h) = true ∧
          u = join base (urldefrag0 h)) ∧
      (get_urls join base capture exclude hrefs).2 =
        (get_urls join base capture exclude hrefs).1.filter
          (fun u => pyIn capture u) := by
    induction hrefs with
    | nil => exact ⟨by simp [get_urls], by simp [get_urls]⟩
    | cons href rest ih =>
        obtain ⟨ih1, ih2⟩ := ih
        by_cases hex : exclude.any (fun e => pyIn e href) = true
        · rw [get_urls_cons_excluded join base capture exclude href rest hex]
          refine ⟨?_, ih2⟩
          intro u hu
          obtain ⟨hs, h, hh, hcl, he⟩ := ih1 u hu
          exact ⟨hs, h, List.mem_cons_of_mem _ hh, hcl, he⟩
        · have hex2 : exclude.any (fun e => pyIn e href) = false := by
            simpa using hex
          by_cases hs : strStarts (join base (urldefrag0 href)) base = true
          · rw [get_urls_cons_kept join base capture exclude href rest hex2 hs]
            constructor
            · intro u hu
              simp only [List.mem_cons] at hu
              rcases hu with rfl | hu
              · refine ⟨hs, href, List.mem_cons_self _ _, ?_, rfl⟩
                rw [List.all_eq_true]
                intro e he
                rw [List.any_eq_false] at hex2
                simpa using hex2 e he
              · obtain ⟨hs2, h, hh, hcl, he⟩ := ih1 u hu
                exact ⟨hs2, h, List.mem_cons_of_mem _ hh, hcl, he⟩
            · simp only [List.filter_cons]
              by_cases hc : pyIn capture (join base (urldefrag0 href)) = true
              · simp [hc, ih2]
              · simp [hc, ih2]
          · have hs2 : strStarts (join base (urldefrag0 href)) base = false := by
              simpa using hs
            rw [get_urls_cons_off join base capture exclude href rest hex2 hs2]
            refine ⟨?_, ih2⟩
            intro u hu
            obtain ⟨hsx, h, hh, hcl, he⟩ := ih1 u hu
            exact ⟨hsx, h, List.mem_cons_of_mem _ hh, hcl, he⟩
  refine ⟨main.1, main.2, ?_⟩
  intro u hu
  rw [main.2] at hu
  exact (main.1 u (List.mem_of_mem_filter hu)).1

/-- Witness for the amended C5 at a concrete document: one in-domain
capture link, one excluded href, one off-domain link. -/
theorem claim_c5_amended_witness :
    (get_urls urljoin "https://e.org/" "/wiki/" [":"]
        ["/wiki/A", "x:y", "https://other.net/z"]).2 =
      (get_urls urljoin "https://e.org/" "/wiki/" [":"]
        ["/wiki/A", "x:y", "https://other.net/z"]).1.filter
        (fun u => pyIn "/wiki/" u) ∧
    strStarts "https://e.org/wiki/A" "https://e.org/" = true :=
  ⟨(claim_c5_amended urljoin "https://e.org/" "/wiki/" [":"]
      ["/wiki/A", "x:y", "https://other.net/z"]).2.1,
   ((claim_c5_amended urljoin "https://e.org/" "/wiki/" [":"]
      ["/wiki/A", "x:y", "https://other.net/z"]).1
      "https://e.org/wiki/A" (by decide)).1⟩

/-- Counterexample to claim C5 as stated: with base `https://e.org/`,
exclusion list `[":"]` and capture `/wiki/`, the single href `/wiki/A`
(which contains no exclusion substring) is joined to the returned url
`https://e.org/wiki/A`, in which the exclusion substring `:` DOES occur:
the returned list is not free of exclusion-substring matches, because
the filter is applied to the raw href before joining. -/
theorem claim_c5_cex :
    (get_urls urljoin "https://e.org/" "/wiki/" [":"] ["/wiki/A"]).1 =
      ["https://e.org/wiki/A"] ∧
    pyIn ":" "https://e.org/wiki/A" = true := by
  decide

/-- Witness for C10 at a concrete one-record result list. -/
theorem claim_c10_witness :
    _write_csv [] = .error .indexError ∧
    _write_csv [[("title", "T"), ("lastmod", "L")]] =
      .ok { header := ["title", "lastmod"],
            rows := [[("title", "T"), ("lastmod", "L")]] } :=
  ⟨claim_c10.1, claim_c10.2 [("title", "T"), ("lastmod", "L")] []⟩
